import Mathlib

/-!
Shallow embedding of `provides.py` from the `juju-relation-pgsql` interface
layer: the per-service conversation state machine of the PostgreSQL
relation provider (`PostgreSQL(RelationBase)` with SERVICE scope).

The conversation store (`conversation`, `get_remote`, `set_remote`,
`get_local`, `set_local`, `set_state`, `remove_state`) is an external
collaborator (charmhelpers); it is modelled here by association lists,
following its documented contract: `get_remote` reads the data last sent
by the remote party, `set_remote` writes data published to the remote
party (a separate bucket, observable by the peer, not by our own
`get_remote`), `get_local`/`set_local` access this side's private
per-conversation values, and states (flags) form a set of strings.
-/

/-- A value stored in a conversation bucket: Python strings, integers and
lists of strings are the only value shapes the source stores. Distinct
shapes are never equal, matching Python `==` across these types. -/
inductive Val where
  | vstr (s : String) : Val
  | vint (n : Int) : Val
  | vlist (l : List String) : Val
deriving DecidableEq

/-- Association list lookup by string key (first match wins). -/
def getKV {α : Type} : List (String × α) → String → Option α
  | [], _ => none
  | (k, v) :: rest, k' => if k = k' then some v else getKV rest k'

/-- Association list update: overwrite the first binding of the key, or
append a new binding at the end if the key is absent. -/
def setKV {α : Type} : List (String × α) → String → α → List (String × α)
  | [], k, v => [(k, v)]
  | (k', v') :: rest, k, v =>
      if k' = k then (k, v) :: rest else (k', v') :: setKV rest k v

/-- Boolean membership in a list of strings. -/
def listHas : List String → String → Bool
  | [], _ => false
  | b :: rest, a => if b = a then true else listHas rest a

/-- Remove every occurrence of a string from a list. -/
def removeAll : List String → String → List String
  | [], _ => []
  | b :: rest, a => if b = a then removeAll rest a else b :: removeAll rest a

/-- Python `s.split(',')` on the underlying character list: splitting on
every comma, keeping empty chunks (`"".split(',') == ['']`). -/
def splitCommaChars : List Char → List (List Char)
  | [] => [[]]
  | c :: rest =>
      if c = ',' then [] :: splitCommaChars rest
      else
        match splitCommaChars rest with
        | [] => [[c]]
        | w :: ws => (c :: w) :: ws

/-- Python `s.split(',')` for strings. -/
def splitComma (s : String) : List String :=
  (splitCommaChars s.toList).map (fun cs => String.mk cs)

/-- One conversation: the per-service negotiation state. `remoteIn` holds
the fields last sent by the remote service (read by `get_remote`),
`remoteOut` the fields this side publishes to the remote service
(written by `set_remote`), `localVals` this side's private acknowledged
baseline (`get_local`/`set_local`), and `states` the active flags. -/
structure Conversation where
  remoteIn : List (String × String)
  remoteOut : List (String × Val)
  localVals : List (String × Val)
  states : List String
deriving DecidableEq

/-- `conv.get_remote(field, default)`: the value the remote party sent for
`field`, or `default` if absent. -/
def Conversation.get_remote (c : Conversation) (field default : String) : String :=
  (getKV c.remoteIn field).getD default

/-- `conv.set_remote(**fields)`: publish a bulk of field/value pairs to the
remote party. -/
def Conversation.set_remote (c : Conversation) (fields : List (String × Val)) : Conversation :=
  { c with remoteOut := fields.foldl (fun m kv => setKV m kv.1 kv.2) c.remoteOut }

/-- `conv.get_local(field)`: this side's stored value, `none` when unset. -/
def Conversation.get_local (c : Conversation) (field : String) : Option Val :=
  getKV c.localVals field

/-- `conv.set_local(field, value)`. -/
def Conversation.set_local (c : Conversation) (field : String) (v : Val) : Conversation :=
  { c with localVals := setKV c.localVals field v }

/-- `conv.set_state(flag)`: activate a flag (idempotent, set semantics). -/
def Conversation.set_state (c : Conversation) (flag : String) : Conversation :=
  { c with states := if listHas c.states flag then c.states else flag :: c.states }

/-- `conv.remove_state(flag)`: deactivate a flag. -/
def Conversation.remove_state (c : Conversation) (flag : String) : Conversation :=
  { c with states := removeAll c.states flag }

/-- Whether a flag is active on this conversation. -/
def Conversation.has_state (c : Conversation) (flag : String) : Bool :=
  listHas c.states flag

/-- A conversation with nothing sent, nothing published, nothing
acknowledged and no flag. -/
def emptyConversation : Conversation := ⟨[], [], [], []⟩

/-- The `PostgreSQL` relation object: one conversation per remote service
(SERVICE scope). -/
structure PostgreSQL where
  convs : List (String × Conversation)
deriving DecidableEq

/-- `self.conversation(scope=service)`: the conversation for a service; a
previously-unseen service reads as the empty conversation. -/
def PostgreSQL.conversation (st : PostgreSQL) (service : String) : Conversation :=
  (getKV st.convs service).getD emptyConversation

/-- Write back a mutation of one service's conversation. -/
def PostgreSQL.withConv (st : PostgreSQL) (service : String)
    (f : Conversation → Conversation) : PostgreSQL :=
  ⟨setKV st.convs service (f (st.conversation service))⟩

/-- `requested_database(service)`: remote `database` field, default `""`
(source lines 150-156). -/
def PostgreSQL.requested_database (st : PostgreSQL) (service : String) : String :=
  (st.conversation service).get_remote "database" ""

/-- `previous_database(service)`: local `database` field, `none` when never
acknowledged (source lines 158-163). -/
def PostgreSQL.previous_database (st : PostgreSQL) (service : String) : Option Val :=
  (st.conversation service).get_local "database"

/-- `requested_roles(service)`: remote `roles` string (default `""`) split
on commas with the empty entries dropped, i.e.
`filter(None, conv.get_remote('roles', '').split(','))`
(source lines 115-117). -/
def PostgreSQL.requested_roles (st : PostgreSQL) (service : String) : List String :=
  (splitComma ((st.conversation service).get_remote "roles" "")).filter
    (fun r => !r.isEmpty)

/-- `requested_roles()` with no service: one `(service, roles)` pair per
known conversation (source lines 118-123). -/
def PostgreSQL.requested_roles_all (st : PostgreSQL) : List (String × List String) :=
  st.convs.map (fun p =>
    (p.1, (splitComma (p.2.get_remote "roles" "")).filter (fun r => !r.isEmpty)))

/-- `previous_roles(service)`: local `roles` field, `none` when never
acknowledged (source lines 125-130). -/
def PostgreSQL.previous_roles (st : PostgreSQL) (service : String) : Option Val :=
  (st.conversation service).get_local "roles"

/-- `requested_databases()`: one `(service, requested database)` pair per
known conversation (source lines 132-148). -/
def PostgreSQL.requested_databases (st : PostgreSQL) : List (String × String) :=
  st.convs.map (fun p => (p.1, st.requested_database p.1))

/-- The comparison on source line 48: Python
`self.previous_database(service) != self.requested_database(service)`,
where the left side is `None` or a string and the right side a string
(`None` compares unequal to every string). -/
def PostgreSQL.databaseMismatch (st : PostgreSQL) (service : String) : Prop :=
  st.previous_database service ≠ some (Val.vstr (st.requested_database service))

instance (st : PostgreSQL) (service : String) :
    Decidable (st.databaseMismatch service) := by
  unfold PostgreSQL.databaseMismatch; infer_instance

/-- The comparison on source line 51: Python
`self.previous_roles(service) != self.requested_roles(service)`, where the
left side is `None` or a stored value and the right side a list of
strings. -/
def PostgreSQL.rolesMismatch (st : PostgreSQL) (service : String) : Prop :=
  st.previous_roles service ≠ some (Val.vlist (st.requested_roles service))

instance (st : PostgreSQL) (service : String) :
    Decidable (st.rolesMismatch service) := by
  unfold PostgreSQL.rolesMismatch; infer_instance

/-- `joined_changed` (source lines 27-52), handling the relation-joined and
relation-changed hooks for the remote `service` resolved from the event
context: set `database.requested` when the requested database differs
from the previously provided one, then set `roles.requested` when the
requested roles differ from the previously acknowledged ones. (The
external `{relation_name}.` flag prefix templating is elided; flags are
identified by their suffix.) -/
def PostgreSQL.joined_changed (st : PostgreSQL) (service : String) : PostgreSQL :=
  let st1 :=
    if st.databaseMismatch service then
      st.withConv service (fun c => c.set_state "database.requested")
    else st
  if st1.rolesMismatch service then
    st1.withConv service (fun c => c.set_state "roles.requested")
  else st1

/-- Whether a flag is active for a service's conversation. -/
def PostgreSQL.hasFlag (st : PostgreSQL) (service flag : String) : Bool :=
  (st.conversation service).has_state flag

/-- `provide_database` (source lines 54-83): publish the eight answer
fields to the remote service, record the provided database name as the
local baseline, and clear `database.requested`.

The `@not_until('{interface:pgsql}.database.requested')` guard is
Modelled from the spec: the decorator lives in charmhelpers (an external
collaborator, not part of this repository's source); per the spec it makes
the call a no-op with no adverse effect when the flag is not set. -/
def PostgreSQL.provide_database (st : PostgreSQL) (service host : String) (port : Int)
    (database user password schema_user schema_password state : String) : PostgreSQL :=
  if st.hasFlag service "database.requested" then
    st.withConv service (fun c =>
      ((c.set_remote
          [("host", Val.vstr host), ("port", Val.vint port),
           ("database", Val.vstr database), ("user", Val.vstr user),
           ("password", Val.vstr password), ("schema_user", Val.vstr schema_user),
           ("schema_password", Val.vstr schema_password),
           ("state", Val.vstr state)]).set_local "database"
          (Val.vstr database)).remove_state "database.requested")
  else st

/-- `ack_roles` (source lines 85-95): record the acknowledged roles as the
local baseline and clear `roles.requested`.

The `@not_until('{interface:pgsql}.roles.requested')` guard is Modelled
from the spec, as for `provide_database`. -/
def PostgreSQL.ack_roles (st : PostgreSQL) (service : String) (roles : List String) : PostgreSQL :=
  if st.hasFlag service "roles.requested" then
    st.withConv service (fun c =>
      (c.set_local "roles" (Val.vlist roles)).remove_state "roles.requested")
  else st

/-- A store with one conversation, `database.requested` pending. -/
def stFlagDb : PostgreSQL := ⟨[("svc", ⟨[], [], [], ["database.requested"]⟩)]⟩

/-- A store with one conversation, `roles.requested` pending. -/
def stFlagRoles : PostgreSQL := ⟨[("svc", ⟨[], [], [], ["roles.requested"]⟩)]⟩

/-- A store with one conversation whose remote party sent `roles "a,,b,"`. -/
def stRolesStr : PostgreSQL := ⟨[("svc", ⟨[("roles", "a,,b,")], [], [], []⟩)]⟩

/-- The empty store: no conversation yet. -/
def stEmpty : PostgreSQL := ⟨[]⟩

/-- A store whose remote party requested `database "db"`, with
`database.requested` pending. -/
def stDbReq : PostgreSQL :=
  ⟨[("svc", ⟨[("database", "db")], [], [], ["database.requested"]⟩)]⟩

example : splitComma "a,,b," = ["a", "", "b", ""] := rfl

example : splitComma "" = [""] := rfl

/-! ### Store lemmas -/

theorem getKV_setKV {α : Type} (l : List (String × α)) (k k' : String) (v : α) :
    getKV (setKV l k v) k' = if k = k' then some v else getKV l k' := by
  induction l with
  | nil => simp [getKV, setKV]
  | cons hd tl ih =>
    obtain ⟨k0, v0⟩ := hd
    by_cases h0 : k0 = k
    · subst h0
      by_cases h1 : k0 = k'
      · subst h1; simp [getKV, setKV]
      · simp [getKV, setKV, h1]
    · by_cases h1 : k0 = k'
      · subst h1
        have hk : k ≠ k0 := fun h => h0 h.symm
        simp [getKV, setKV, h0, hk]
      · simp [getKV, setKV, h0, h1, ih]

theorem setKV_getKV {α : Type} (l : List (String × α)) (k : String) (c : α)
    (h : getKV l k = some c) : setKV l k c = l := by
  induction l with
  | nil => simp [getKV] at h
  | cons hd tl ih =>
    obtain ⟨k0, v0⟩ := hd
    by_cases h0 : k0 = k
    · subst h0
      simp [getKV] at h
      simp [setKV, h]
    · simp [getKV, h0] at h
      simp [setKV, h0, ih h]

theorem listHas_removeAll (l : List String) (a : String) :
    listHas (removeAll l a) a = false := by
  induction l with
  | nil => simp [removeAll, listHas]
  | cons b rest ih =>
    by_cases hb : b = a
    · simp [removeAll, hb, ih]
    · simp [removeAll, listHas, hb, ih]

theorem listHas_removeAll_other (l : List String) (a a' : String) (h : a' ≠ a) :
    listHas (removeAll l a) a' = listHas l a' := by
  induction l with
  | nil => simp [removeAll]
  | cons b rest ih =>
    by_cases hb : b = a
    · subst hb
      have : b ≠ a' := fun he => h he.symm
      simp [removeAll, listHas, this, ih]
    · simp [removeAll, listHas, hb, ih]

/-! ### Conversation lemmas -/

theorem set_state_remoteIn (c : Conversation) (f : String) :
    (c.set_state f).remoteIn = c.remoteIn := rfl

theorem set_state_remoteOut (c : Conversation) (f : String) :
    (c.set_state f).remoteOut = c.remoteOut := rfl

theorem set_state_localVals (c : Conversation) (f : String) :
    (c.set_state f).localVals = c.localVals := rfl

theorem has_state_set_state_same (c : Conversation) (f : String) :
    (c.set_state f).has_state f = true := by
  unfold Conversation.set_state Conversation.has_state
  by_cases h : listHas c.states f
  · simp [h]
  · simp [h, listHas]

theorem has_state_set_state_other (c : Conversation) (f f' : String) (h : f' ≠ f) :
    (c.set_state f).has_state f' = c.has_state f' := by
  unfold Conversation.set_state Conversation.has_state
  by_cases hh : listHas c.states f
  · simp [hh]
  · have : f ≠ f' := fun he => h he.symm
    simp [hh, listHas, this]

theorem set_state_of_has_state (c : Conversation) (f : String)
    (h : c.has_state f = true) : c.set_state f = c := by
  unfold Conversation.has_state at h
  unfold Conversation.set_state
  rw [if_pos h]

theorem has_state_remove_state_same (c : Conversation) (f : String) :
    (c.remove_state f).has_state f = false := by
  unfold Conversation.remove_state Conversation.has_state
  exact listHas_removeAll c.states f

theorem has_state_remove_state_other (c : Conversation) (f f' : String) (h : f' ≠ f) :
    (c.remove_state f).has_state f' = c.has_state f' := by
  unfold Conversation.remove_state Conversation.has_state
  exact listHas_removeAll_other c.states f f' h

/-! ### Conversation access through the store -/

theorem conversation_withConv_same (st : PostgreSQL) (s : String)
    (g : Conversation → Conversation) :
    (st.withConv s g).conversation s = g (st.conversation s) := by
  unfold PostgreSQL.withConv PostgreSQL.conversation
  simp [getKV_setKV]

theorem conversation_withConv_other (st : PostgreSQL) (s s' : String)
    (g : Conversation → Conversation) (h : s ≠ s') :
    (st.withConv s g).conversation s' = st.conversation s' := by
  unfold PostgreSQL.withConv PostgreSQL.conversation
  simp [getKV_setKV, h]

theorem withConv_set_state_of_hasFlag (st : PostgreSQL) (s f : String)
    (h : st.hasFlag s f = true) :
    st.withConv s (fun c => c.set_state f) = st := by
  unfold PostgreSQL.withConv
  cases hc : getKV st.convs s with
  | none =>
    exfalso
    unfold PostgreSQL.hasFlag PostgreSQL.conversation at h
    rw [hc] at h
    simp [emptyConversation, Conversation.has_state, listHas] at h
  | some c =>
    have hconv : st.conversation s = c := by
      unfold PostgreSQL.conversation; rw [hc]; rfl
    have hstate : c.has_state f = true := by
      unfold PostgreSQL.hasFlag at h; rw [hconv] at h; exact h
    have hbeta : (fun c => c.set_state f) (st.conversation s) = c := by
      rw [hconv]; exact set_state_of_has_state c f hstate
    rw [hbeta]
    cases st with
    | mk convs => exact congrArg PostgreSQL.mk (setKV_getKV convs s c hc)

/-! ### Flag setting does not touch data fields -/

theorem previous_database_withConv_set_state (st : PostgreSQL) (s' s f : String) :
    (st.withConv s' (fun c => c.set_state f)).previous_database s
      = st.previous_database s := by
  unfold PostgreSQL.previous_database
  by_cases h : s' = s
  · subst h; rw [conversation_withConv_same]; rfl
  · rw [conversation_withConv_other st s' s _ h]

theorem previous_roles_withConv_set_state (st : PostgreSQL) (s' s f : String) :
    (st.withConv s' (fun c => c.set_state f)).previous_roles s
      = st.previous_roles s := by
  unfold PostgreSQL.previous_roles
  by_cases h : s' = s
  · subst h; rw [conversation_withConv_same]; rfl
  · rw [conversation_withConv_other st s' s _ h]

theorem requested_database_withConv_set_state (st : PostgreSQL) (s' s f : String) :
    (st.withConv s' (fun c => c.set_state f)).requested_database s
      = st.requested_database s := by
  unfold PostgreSQL.requested_database
  by_cases h : s' = s
  · subst h; rw [conversation_withConv_same]; rfl
  · rw [conversation_withConv_other st s' s _ h]

theorem requested_roles_withConv_set_state (st : PostgreSQL) (s' s f : String) :
    (st.withConv s' (fun c => c.set_state f)).requested_roles s
      = st.requested_roles s := by
  unfold PostgreSQL.requested_roles
  by_cases h : s' = s
  · subst h; rw [conversation_withConv_same]; rfl
  · rw [conversation_withConv_other st s' s _ h]

theorem databaseMismatch_withConv_set_state (st : PostgreSQL) (s' s f : String) :
    (st.withConv s' (fun c => c.set_state f)).databaseMismatch s
      ↔ st.databaseMismatch s := by
  unfold PostgreSQL.databaseMismatch
  rw [previous_database_withConv_set_state, requested_database_withConv_set_state]

theorem rolesMismatch_withConv_set_state (st : PostgreSQL) (s' s f : String) :
    (st.withConv s' (fun c => c.set_state f)).rolesMismatch s
      ↔ st.rolesMismatch s := by
  unfold PostgreSQL.rolesMismatch
  rw [previous_roles_withConv_set_state, requested_roles_withConv_set_state]

theorem hasFlag_withConv_set_state_same (st : PostgreSQL) (s f : String) :
    (st.withConv s (fun c => c.set_state f)).hasFlag s f = true := by
  unfold PostgreSQL.hasFlag
  rw [conversation_withConv_same]
  exact has_state_set_state_same _ f

theorem hasFlag_withConv_set_state_other (st : PostgreSQL) (s' s f f' : String)
    (h : f' ≠ f) :
    (st.withConv s' (fun c => c.set_state f)).hasFlag s f' = st.hasFlag s f' := by
  unfold PostgreSQL.hasFlag
  by_cases hs : s' = s
  · subst hs
    rw [conversation_withConv_same]
    exact has_state_set_state_other _ f f' h
  · rw [conversation_withConv_other st s' s _ hs]

theorem hasFlag_withConv_set_state_mono (st : PostgreSQL) (s' s f f' : String)
    (h : st.hasFlag s f' = true) :
    (st.withConv s' (fun c => c.set_state f)).hasFlag s f' = true := by
  by_cases hf : f' = f
  · subst hf
    by_cases hs : s' = s
    · subst hs; exact hasFlag_withConv_set_state_same st s' f'
    · unfold PostgreSQL.hasFlag
      rw [conversation_withConv_other st s' s _ hs]
      exact h
  · rw [hasFlag_withConv_set_state_other st s' s f f' hf]
    exact h

/-- Evaluation leaves `database.requested` equal to its old value or-ed
with the line-48 mismatch test. -/
theorem joined_changed_hasFlag_db (st : PostgreSQL) (service : String) :
    (st.joined_changed service).hasFlag service "database.requested"
      = (st.hasFlag service "database.requested"
          || decide (st.databaseMismatch service)) := by
  unfold PostgreSQL.joined_changed
  by_cases hdb : st.databaseMismatch service
  · rw [if_pos hdb]
    rw [decide_eq_true hdb, Bool.or_true]
    by_cases hr : (st.withConv service
        (fun c => c.set_state "database.requested")).rolesMismatch service
    · rw [if_pos hr]
      rw [hasFlag_withConv_set_state_other _ service service _ _ (by decide)]
      exact hasFlag_withConv_set_state_same st service _
    · rw [if_neg hr]
      exact hasFlag_withConv_set_state_same st service _
  · rw [if_neg hdb]
    rw [decide_eq_false hdb, Bool.or_false]
    by_cases hr : st.rolesMismatch service
    · rw [if_pos hr]
      exact hasFlag_withConv_set_state_other _ service service _ _ (by decide)
    · rw [if_neg hr]

/-- Evaluation leaves `roles.requested` equal to its old value or-ed with
the line-51 mismatch test. -/
theorem joined_changed_hasFlag_roles (st : PostgreSQL) (service : String) :
    (st.joined_changed service).hasFlag service "roles.requested"
      = (st.hasFlag service "roles.requested"
          || decide (st.rolesMismatch service)) := by
  unfold PostgreSQL.joined_changed
  by_cases hdb : st.databaseMismatch service
  · rw [if_pos hdb]
    have hiff := rolesMismatch_withConv_set_state st service service "database.requested"
    by_cases hr : st.rolesMismatch service
    · rw [if_pos (hiff.mpr hr)]
      rw [decide_eq_true hr, Bool.or_true]
      exact hasFlag_withConv_set_state_same _ service _
    · rw [if_neg (fun hx => hr (hiff.mp hx))]
      rw [decide_eq_false hr, Bool.or_false]
      exact hasFlag_withConv_set_state_other _ service service _ _ (by decide)
  · rw [if_neg hdb]
    by_cases hr : st.rolesMismatch service
    · rw [if_pos hr]
      rw [decide_eq_true hr, Bool.or_true]
      exact hasFlag_withConv_set_state_same st service _
    · rw [if_neg hr]
      rw [decide_eq_false hr, Bool.or_false]

/-- Claim C7: `requested_roles(service)` returns the remote `roles` string
split on commas with empty tokens dropped: `"a,,b,"` yields
`["a", "b"]`, and an absent or empty remote `roles` value yields the
empty sequence. -/
theorem pgsql_c7_requested_roles_parsing (st : PostgreSQL) (service : String) :
    (getKV (st.conversation service).remoteIn "roles" = some "a,,b," →
      st.requested_roles service = ["a", "b"])
    ∧ (getKV (st.conversation service).remoteIn "roles" = none →
      st.requested_roles service = [])
    ∧ (getKV (st.conversation service).remoteIn "roles" = some "" →
      st.requested_roles service = []) := by
  unfold PostgreSQL.requested_roles Conversation.get_remote
  refine ⟨fun h => ?_, fun h => ?_, fun h => ?_⟩ <;> rw [h] <;> rfl

/-- Witness for C7 at a concrete store whose remote party sent
`roles "a,,b,"`. -/
theorem pgsql_c7_witness :
    getKV (stRolesStr.conversation "svc").remoteIn "roles" = some "a,,b,"
    ∧ stRolesStr.requested_roles "svc" = ["a", "b"] :=
  ⟨rfl, (pgsql_c7_requested_roles_parsing stRolesStr "svc").1 rfl⟩

/-- Claim C4: `ack_roles(service, roles)` records the roles sequence exactly
as given as the local `roles` baseline and clears `roles.requested`;
afterwards `previous_roles(service)` returns that same sequence. -/
theorem pgsql_c4_ack_roles_effects (st : PostgreSQL) (service : String)
    (roles : List String)
    (h : st.hasFlag service "roles.requested" = true) :
    (st.ack_roles service roles).previous_roles service = some (Val.vlist roles)
    ∧ (st.ack_roles service roles).hasFlag service "roles.requested" = false := by
  unfold PostgreSQL.ack_roles
  rw [if_pos h]
  constructor
  · unfold PostgreSQL.previous_roles
    rw [conversation_withConv_same]
    simp [Conversation.get_local, Conversation.remove_state, Conversation.set_local,
      getKV_setKV]
  · unfold PostgreSQL.hasFlag
    rw [conversation_withConv_same]
    exact has_state_remove_state_same _ _

/-- Witness for C4 at a concrete store with `roles.requested` pending. -/
theorem pgsql_c4_witness :
    stFlagRoles.hasFlag "svc" "roles.requested" = true
    ∧ ((stFlagRoles.ack_roles "svc" ["a", "b"]).previous_roles "svc"
          = some (Val.vlist ["a", "b"])
        ∧ (stFlagRoles.ack_roles "svc" ["a", "b"]).hasFlag "svc" "roles.requested"
          = false) :=
  ⟨by decide, pgsql_c4_ack_roles_effects stFlagRoles "svc" ["a", "b"] (by decide)⟩

/-- Claim C6: when the corresponding flag is not pending, `provide_database`
and `ack_roles` are guarded no-ops: the whole store (remote fields, local
fields and flags of every conversation) is left unchanged. The guard is
the spec-modelled `not_until` decorator. -/
theorem pgsql_c6_guarded_noop (st : PostgreSQL) (service host : String) (port : Int)
    (database user password schema_user schema_password state : String)
    (roles : List String) :
    (st.hasFlag service "database.requested" = false →
      st.provide_database service host port database user password schema_user
        schema_password state = st)
    ∧ (st.hasFlag service "roles.requested" = false →
      st.ack_roles service roles = st) := by
  constructor
  · intro h
    unfold PostgreSQL.provide_database
    rw [if_neg (by simp [h])]
  · intro h
    unfold PostgreSQL.ack_roles
    rw [if_neg (by simp [h])]

/-- Witness for C6 at the empty store, where neither flag is pending. -/
theorem pgsql_c6_witness :
    stEmpty.hasFlag "svc" "database.requested" = false
    ∧ stEmpty.hasFlag "svc" "roles.requested" = false
    ∧ stEmpty.provide_database "svc" "h" 5432 "db" "u" "p" "su" "sp" "s" = stEmpty
    ∧ stEmpty.ack_roles "svc" ["a"] = stEmpty :=
  ⟨by decide, by decide,
    (pgsql_c6_guarded_noop stEmpty "svc" "h" 5432 "db" "u" "p" "su" "sp" "s" ["a"]).1
      (by decide),
    (pgsql_c6_guarded_noop stEmpty "svc" "h" 5432 "db" "u" "p" "su" "sp" "s" ["a"]).2
      (by decide)⟩

/-- Claim C3: `provide_database` writes exactly the eight fields `host`,
`port`, `database`, `user`, `password`, `schema_user`, `schema_password`,
`state` into the remote-visible (published) part of the service's
conversation, sets the local `database` field to the `database` argument,
and clears `database.requested`; it has no other effect: the data the
remote party sent, the local `roles` field, the `roles.requested` flag
and every other service's conversation are unchanged. -/
theorem pgsql_c3_provide_database_effects (st st' : PostgreSQL)
    (service host : String) (port : Int)
    (database user password schema_user schema_password state : String)
    (h : st.hasFlag service "database.requested" = true)
    (hst' : st' = st.provide_database service host port database user password
        schema_user schema_password state) :
    getKV (st'.conversation service).remoteOut "host" = some (Val.vstr host)
    ∧ getKV (st'.conversation service).remoteOut "port" = some (Val.vint port)
    ∧ getKV (st'.conversation service).remoteOut "database" = some (Val.vstr database)
    ∧ getKV (st'.conversation service).remoteOut "user" = some (Val.vstr user)
    ∧ getKV (st'.conversation service).remoteOut "password" = some (Val.vstr password)
    ∧ getKV (st'.conversation service).remoteOut "schema_user"
        = some (Val.vstr schema_user)
    ∧ getKV (st'.conversation service).remoteOut "schema_password"
        = some (Val.vstr schema_password)
    ∧ getKV (st'.conversation service).remoteOut "state" = some (Val.vstr state)
    ∧ (∀ f, f ∉ (["host", "port", "database", "user", "password", "schema_user",
          "schema_password", "state"] : List String) →
        getKV (st'.conversation service).remoteOut f
          = getKV (st.conversation service).remoteOut f)
    ∧ (st'.conversation service).remoteIn = (st.conversation service).remoteIn
    ∧ st'.previous_database service = some (Val.vstr database)
    ∧ st'.previous_roles service = st.previous_roles service
    ∧ st'.hasFlag service "database.requested" = false
    ∧ st'.hasFlag service "roles.requested" = st.hasFlag service "roles.requested"
    ∧ (∀ s', s' ≠ service → st'.conversation s' = st.conversation s') := by
  subst hst'
  unfold PostgreSQL.provide_database
  rw [if_pos h]
  refine ⟨?_, ?_, ?_, ?_, ?_, ?_, ?_, ?_, ?_, ?_, ?_, ?_, ?_, ?_, ?_⟩
  · rw [conversation_withConv_same]
    simp [Conversation.remove_state, Conversation.set_local, Conversation.set_remote,
      getKV_setKV]
  · rw [conversation_withConv_same]
    simp [Conversation.remove_state, Conversation.set_local, Conversation.set_remote,
      getKV_setKV]
  · rw [conversation_withConv_same]
    simp [Conversation.remove_state, Conversation.set_local, Conversation.set_remote,
      getKV_setKV]
  · rw [conversation_withConv_same]
    simp [Conversation.remove_state, Conversation.set_local, Conversation.set_remote,
      getKV_setKV]
  · rw [conversation_withConv_same]
    simp [Conversation.remove_state, Conversation.set_local, Conversation.set_remote,
      getKV_setKV]
  · rw [conversation_withConv_same]
    simp [Conversation.remove_state, Conversation.set_local, Conversation.set_remote,
      getKV_setKV]
  · rw [conversation_withConv_same]
    simp [Conversation.remove_state, Conversation.set_local, Conversation.set_remote,
      getKV_setKV]
  · rw [conversation_withConv_same]
    simp [Conversation.remove_state, Conversation.set_local, Conversation.set_remote,
      getKV_setKV]
  · intro f hf
    simp only [List.mem_cons, List.not_mem_nil, or_false, not_or] at hf
    obtain ⟨h1, h2, h3, h4, h5, h6, h7, h8⟩ := hf
    rw [conversation_withConv_same]
    simp [Conversation.remove_state, Conversation.set_local, Conversation.set_remote,
      getKV_setKV, Ne.symm h1, Ne.symm h2, Ne.symm h3, Ne.symm h4, Ne.symm h5,
      Ne.symm h6, Ne.symm h7, Ne.symm h8]
  · rw [conversation_withConv_same]
    rfl
  · unfold PostgreSQL.previous_database
    rw [conversation_withConv_same]
    simp [Conversation.get_local, Conversation.remove_state, Conversation.set_local,
      Conversation.set_remote, getKV_setKV]
  · unfold PostgreSQL.previous_roles
    rw [conversation_withConv_same]
    simp [Conversation.get_local, Conversation.remove_state, Conversation.set_local,
      Conversation.set_remote, getKV_setKV]
  · unfold PostgreSQL.hasFlag
    rw [conversation_withConv_same]
    exact has_state_remove_state_same _ _
  · unfold PostgreSQL.hasFlag
    rw [conversation_withConv_same]
    exact has_state_remove_state_other _ _ _ (by decide)
  · intro s' hs
    exact conversation_withConv_other st service s' _ (fun he => hs he.symm)

/-- Witness for C3 at a concrete store with `database.requested` pending. -/
theorem pgsql_c3_witness :
    stFlagDb.hasFlag "svc" "database.requested" = true
    ∧ (stFlagDb.provide_database "svc" "10.0.0.5" 5432 "wp_db" "u" "p" "su" "sp"
          "live").previous_database "svc" = some (Val.vstr "wp_db")
    ∧ (stFlagDb.provide_database "svc" "10.0.0.5" 5432 "wp_db" "u" "p" "su" "sp"
          "live").hasFlag "svc" "database.requested" = false :=
  ⟨by decide,
    (pgsql_c3_provide_database_effects stFlagDb
      (stFlagDb.provide_database "svc" "10.0.0.5" 5432 "wp_db" "u" "p" "su" "sp" "live")
      "svc" "10.0.0.5" 5432 "wp_db" "u" "p" "su" "sp" "live" (by decide)
      rfl).2.2.2.2.2.2.2.2.2.2.1,
    (pgsql_c3_provide_database_effects stFlagDb
      (stFlagDb.provide_database "svc" "10.0.0.5" 5432 "wp_db" "u" "p" "su" "sp" "live")
      "svc" "10.0.0.5" 5432 "wp_db" "u" "p" "su" "sp" "live" (by decide)
      rfl).2.2.2.2.2.2.2.2.2.2.2.2.1⟩

/-- Claim C1: on every inbound joined/changed notification for a party, the
evaluator sets `database.requested` when the requested database (remote
`database`, default `""`) differs from the previous database (local
`database`), and otherwise leaves the flag state untouched; it never
clears the flag. Equivalently, the flag after evaluation is the old flag
value or-ed with the mismatch test of source line 48. -/
theorem pgsql_c1_database_flag_evaluation (st : PostgreSQL) (service : String) :
    (st.joined_changed service).hasFlag service "database.requested"
      = (st.hasFlag service "database.requested"
          || decide (st.databaseMismatch service)) :=
  joined_changed_hasFlag_db st service

/-- Claim C2: on every inbound joined/changed notification for a party, the
evaluator compares the remote `roles` string parsed as a comma-separated
sequence with empty entries dropped against the local `roles` value, and
the run sets `roles.requested` exactly when they are unequal; it never
clears the flag. Equivalently, the flag after evaluation is the old flag
value or-ed with the mismatch test of source line 51. -/
theorem pgsql_c2_roles_flag_evaluation (st : PostgreSQL) (service : String) :
    (st.joined_changed service).hasFlag service "roles.requested"
      = (st.hasFlag service "roles.requested"
          || decide (st.rolesMismatch service)) :=
  joined_changed_hasFlag_roles st service

/-- When every mismatching field already carries its flag, evaluation does
not change the store at all. -/
theorem joined_changed_noop (st : PostgreSQL) (service : String)
    (h1 : st.databaseMismatch service → st.hasFlag service "database.requested" = true)
    (h2 : st.rolesMismatch service → st.hasFlag service "roles.requested" = true) :
    st.joined_changed service = st := by
  unfold PostgreSQL.joined_changed
  by_cases hdb : st.databaseMismatch service
  · rw [if_pos hdb, withConv_set_state_of_hasFlag st service _ (h1 hdb)]
    by_cases hr : st.rolesMismatch service
    · rw [if_pos hr, withConv_set_state_of_hasFlag st service _ (h2 hr)]
    · rw [if_neg hr]
  · rw [if_neg hdb]
    by_cases hr : st.rolesMismatch service
    · rw [if_pos hr, withConv_set_state_of_hasFlag st service _ (h2 hr)]
    · rw [if_neg hr]

/-- Evaluation does not change the database mismatch test. -/
theorem joined_changed_databaseMismatch (st : PostgreSQL) (s' s : String) :
    (st.joined_changed s').databaseMismatch s ↔ st.databaseMismatch s := by
  unfold PostgreSQL.joined_changed
  by_cases hdb : st.databaseMismatch s'
  · rw [if_pos hdb]
    by_cases hr : (st.withConv s'
        (fun c => c.set_state "database.requested")).rolesMismatch s'
    · rw [if_pos hr]
      rw [databaseMismatch_withConv_set_state, databaseMismatch_withConv_set_state]
    · rw [if_neg hr]
      rw [databaseMismatch_withConv_set_state]
  · rw [if_neg hdb]
    by_cases hr : st.rolesMismatch s'
    · rw [if_pos hr]
      rw [databaseMismatch_withConv_set_state]
    · rw [if_neg hr]

/-- Evaluation does not change the roles mismatch test. -/
theorem joined_changed_rolesMismatch (st : PostgreSQL) (s' s : String) :
    (st.joined_changed s').rolesMismatch s ↔ st.rolesMismatch s := by
  unfold PostgreSQL.joined_changed
  by_cases hdb : st.databaseMismatch s'
  · rw [if_pos hdb]
    by_cases hr : (st.withConv s'
        (fun c => c.set_state "database.requested")).rolesMismatch s'
    · rw [if_pos hr]
      rw [rolesMismatch_withConv_set_state, rolesMismatch_withConv_set_state]
    · rw [if_neg hr]
      rw [rolesMismatch_withConv_set_state]
  · rw [if_neg hdb]
    by_cases hr : st.rolesMismatch s'
    · rw [if_pos hr]
      rw [rolesMismatch_withConv_set_state]
    · rw [if_neg hr]

/-- When `database.requested` is pending, `provide_database` records the
provided name as the local baseline. -/
theorem provide_database_previous (st : PostgreSQL) (service host : String)
    (port : Int) (database user password schema_user schema_password state : String)
    (h : st.hasFlag service "database.requested" = true) :
    (st.provide_database service host port database user password schema_user
        schema_password state).previous_database service
      = some (Val.vstr database) := by
  unfold PostgreSQL.provide_database
  rw [if_pos h]
  unfold PostgreSQL.previous_database
  rw [conversation_withConv_same]
  simp [Conversation.get_local, Conversation.remove_state, Conversation.set_local,
    Conversation.set_remote, getKV_setKV]

/-- `provide_database` never changes what the remote party has requested. -/
theorem provide_database_requested (st : PostgreSQL) (service host : String)
    (port : Int) (database user password schema_user schema_password state : String)
    (s : String) :
    (st.provide_database service host port database user password schema_user
        schema_password state).requested_database s
      = st.requested_database s := by
  unfold PostgreSQL.provide_database
  by_cases h : st.hasFlag service "database.requested" = true
  · rw [if_pos h]
    unfold PostgreSQL.requested_database
    by_cases hs : service = s
    · subst hs
      rw [conversation_withConv_same]
      rfl
    · rw [conversation_withConv_other st service s _ hs]
  · rw [if_neg h]

/-- When `database.requested` is pending, `provide_database` clears it. -/
theorem provide_database_clears_flag (st : PostgreSQL) (service host : String)
    (port : Int) (database user password schema_user schema_password state : String)
    (h : st.hasFlag service "database.requested" = true) :
    (st.provide_database service host port database user password schema_user
        schema_password state).hasFlag service "database.requested" = false := by
  unfold PostgreSQL.provide_database
  rw [if_pos h]
  unfold PostgreSQL.hasFlag
  rw [conversation_withConv_same]
  exact has_state_remove_state_same _ _

/-- Counterexample to claim C5 as stated: party `wordpress` sends no
database name (remote `database` absent, i.e. requested `""`); the first
evaluation raises `database.requested`; the provider answers with a
generated name `wp_db`, which clears the flag; the remote data is
untouched throughout; yet the next evaluation re-raises the flag,
because the acknowledged local baseline `wp_db` differs from the still
unchanged remote request `""`. -/
theorem pgsql_c5_counterexample :
    ((stEmpty.joined_changed "wordpress").provide_database "wordpress" "10.0.0.5"
        5432 "wp_db" "u" "p" "su" "sp" "live").hasFlag "wordpress"
        "database.requested" = false
    ∧ (((stEmpty.joined_changed "wordpress").provide_database "wordpress" "10.0.0.5"
        5432 "wp_db" "u" "p" "su" "sp" "live").conversation "wordpress").remoteIn
        = ((stEmpty.joined_changed "wordpress").conversation "wordpress").remoteIn
    ∧ (((stEmpty.joined_changed "wordpress").provide_database "wordpress" "10.0.0.5"
        5432 "wp_db" "u" "p" "su" "sp" "live").joined_changed "wordpress").hasFlag
        "wordpress" "database.requested" = true := by
  decide

/-- Claim C5 (amended): evaluating twice in a row with unchanged remote
state yields the same store as evaluating once (the evaluator is
idempotent, so it cannot set a flag the first run left clear); and after
`provide_database` clears `database.requested`, a subsequent evaluation
with unchanged remote state leaves the flag clear provided the database
argument equals the remote-requested database name. (The original claim
omits that proviso; the counterexample provisions a generated name for a
party that requested `""`, and the flag is re-raised.) -/
theorem pgsql_c5_amended (st : PostgreSQL) (service host : String) (port : Int)
    (database user password schema_user schema_password state : String) :
    (st.joined_changed service).joined_changed service = st.joined_changed service
    ∧ (st.hasFlag service "database.requested" = true →
        database = st.requested_database service →
        ((st.provide_database service host port database user password schema_user
            schema_password state).joined_changed service).hasFlag service
          "database.requested" = false) := by
  constructor
  · apply joined_changed_noop
    · intro hm
      rw [joined_changed_hasFlag_db]
      have hm' := (joined_changed_databaseMismatch st service service).mp hm
      rw [decide_eq_true hm', Bool.or_true]
    · intro hm
      rw [joined_changed_hasFlag_roles]
      have hm' := (joined_changed_rolesMismatch st service service).mp hm
      rw [decide_eq_true hm', Bool.or_true]
  · intro hf hdb
    have hflag := provide_database_clears_flag st service host port database user
      password schema_user schema_password state hf
    have hprev := provide_database_previous st service host port database user
      password schema_user schema_password state hf
    have hreq := provide_database_requested st service host port database user
      password schema_user schema_password state service
    have hnomis : ¬ (st.provide_database service host port database user password
        schema_user schema_password state).databaseMismatch service := by
      unfold PostgreSQL.databaseMismatch
      rw [hprev, hreq, ← hdb]
      simp
    rw [joined_changed_hasFlag_db, hflag, decide_eq_false hnomis, Bool.or_false]

/-- Witness for C5 (amended) at a concrete store: the remote party
requested `database "db"`, the flag is pending, and the provider answers
with exactly the requested name; re-evaluation leaves the flag clear. -/
theorem pgsql_c5_witness :
    stDbReq.hasFlag "svc" "database.requested" = true
    ∧ "db" = stDbReq.requested_database "svc"
    ∧ ((stDbReq.provide_database "svc" "h" 5432 "db" "u" "p" "su" "sp" "s"
          ).joined_changed "svc").hasFlag "svc" "database.requested" = false :=
  ⟨by decide, by decide,
    (pgsql_c5_amended stDbReq "svc" "h" 5432 "db" "u" "p" "su" "sp" "s").2
      (by decide) (by decide)⟩

/-- Claim C8: for two distinct parties, every state-changing core operation
applied to the first (`joined_changed`, `provide_database`, `ack_roles`)
leaves the second party's whole conversation, remote fields, local
fields and flags included, unchanged. (The Query API accessors are pure
reads in this embedding: they return values and do not produce a store,
so they cannot mutate any party's state.) -/
theorem pgsql_c8_party_isolation (st : PostgreSQL) (p1 p2 host : String)
    (port : Int)
    (database user password schema_user schema_password state : String)
    (roles : List String) (h : p2 ≠ p1) :
    (st.joined_changed p1).conversation p2 = st.conversation p2
    ∧ (st.provide_database p1 host port database user password schema_user
        schema_password state).conversation p2 = st.conversation p2
    ∧ (st.ack_roles p1 roles).conversation p2 = st.conversation p2 := by
  have hne : p1 ≠ p2 := fun he => h he.symm
  refine ⟨?_, ?_, ?_⟩
  · unfold PostgreSQL.joined_changed
    by_cases hdb : st.databaseMismatch p1
    · rw [if_pos hdb]
      by_cases hr : (st.withConv p1
          (fun c => c.set_state "database.requested")).rolesMismatch p1
      · rw [if_pos hr, conversation_withConv_other _ _ _ _ hne,
          conversation_withConv_other _ _ _ _ hne]
      · rw [if_neg hr, conversation_withConv_other _ _ _ _ hne]
    · rw [if_neg hdb]
      by_cases hr : st.rolesMismatch p1
      · rw [if_pos hr, conversation_withConv_other _ _ _ _ hne]
      · rw [if_neg hr]
  · unfold PostgreSQL.provide_database
    by_cases hf : st.hasFlag p1 "database.requested" = true
    · rw [if_pos hf, conversation_withConv_other _ _ _ _ hne]
    · rw [if_neg hf]
  · unfold PostgreSQL.ack_roles
    by_cases hf : st.hasFlag p1 "roles.requested" = true
    · rw [if_pos hf, conversation_withConv_other _ _ _ _ hne]
    · rw [if_neg hf]

/-- Witness for C8 with the two distinct parties of the wordpress scenario
applied to a concrete store. -/
theorem pgsql_c8_witness :
    ("other" : String) ≠ "svc"
    ∧ ((stDbReq.joined_changed "svc").conversation "other"
          = stDbReq.conversation "other"
        ∧ (stDbReq.provide_database "svc" "h" 5432 "db" "u" "p" "su" "sp" "s"
            ).conversation "other" = stDbReq.conversation "other"
        ∧ (stDbReq.ack_roles "svc" ["a"]).conversation "other"
          = stDbReq.conversation "other") :=
  ⟨by decide,
    pgsql_c8_party_isolation stDbReq "svc" "other" "h" 5432 "db" "u" "p" "su" "sp"
      "s" ["a"] (by decide)⟩

/-- Claim C9: for every party, the local `database` and `roles` fields
change only through `provide_database` and `ack_roles` respectively: the
evaluator changes neither local field for any party, `provide_database`
never changes any local `roles` field and `ack_roles` never changes any
local `database` field. (The Query API accessors — `requested_roles`,
`previous_roles`, `requested_databases`, `requested_database`,
`previous_database` — are pure reads in this embedding and return values
without producing a store, so they change no local field.) -/
theorem pgsql_c9_local_fields_update_only_on_ack (st : PostgreSQL)
    (s' s host : String) (port : Int)
    (database user password schema_user schema_password state : String)
    (roles : List String) :
    (st.joined_changed s').previous_database s = st.previous_database s
    ∧ (st.joined_changed s').previous_roles s = st.previous_roles s
    ∧ (st.provide_database s' host port database user password schema_user
        schema_password state).previous_roles s = st.previous_roles s
    ∧ (st.ack_roles s' roles).previous_database s = st.previous_database s := by
  refine ⟨?_, ?_, ?_, ?_⟩
  · unfold PostgreSQL.joined_changed
    by_cases hdb : st.databaseMismatch s'
    · rw [if_pos hdb]
      by_cases hr : (st.withConv s'
          (fun c => c.set_state "database.requested")).rolesMismatch s'
      · rw [if_pos hr, previous_database_withConv_set_state,
          previous_database_withConv_set_state]
      · rw [if_neg hr, previous_database_withConv_set_state]
    · rw [if_neg hdb]
      by_cases hr : st.rolesMismatch s'
      · rw [if_pos hr, previous_database_withConv_set_state]
      · rw [if_neg hr]
  · unfold PostgreSQL.joined_changed
    by_cases hdb : st.databaseMismatch s'
    · rw [if_pos hdb]
      by_cases hr : (st.withConv s'
          (fun c => c.set_state "database.requested")).rolesMismatch s'
      · rw [if_pos hr, previous_roles_withConv_set_state,
          previous_roles_withConv_set_state]
      · rw [if_neg hr, previous_roles_withConv_set_state]
    · rw [if_neg hdb]
      by_cases hr : st.rolesMismatch s'
      · rw [if_pos hr, previous_roles_withConv_set_state]
      · rw [if_neg hr]
  · unfold PostgreSQL.provide_database
    by_cases hf : st.hasFlag s' "database.requested" = true
    · rw [if_pos hf]
      unfold PostgreSQL.previous_roles
      by_cases hs : s' = s
      · subst hs
        rw [conversation_withConv_same]
        simp [Conversation.get_local, Conversation.remove_state,
          Conversation.set_local, Conversation.set_remote, getKV_setKV]
      · rw [conversation_withConv_other st s' s _ hs]
    · rw [if_neg hf]
  · unfold PostgreSQL.ack_roles
    by_cases hf : st.hasFlag s' "roles.requested" = true
    · rw [if_pos hf]
      unfold PostgreSQL.previous_database
      by_cases hs : s' = s
      · subst hs
        rw [conversation_withConv_same]
        simp [Conversation.get_local, Conversation.remove_state,
          Conversation.set_local, getKV_setKV]
      · rw [conversation_withConv_other st s' s _ hs]
    · rw [if_neg hf]

/-- Claim C10: for a party with no acknowledged local state,
`previous_database` and `previous_roles` return the store's unset value
(`none`), which differs both from the remote database default `""` and
from the parsed empty roles sequence `[]`; consequently the first
joined/changed evaluation for such a party sets both `database.requested`
and `roles.requested` even when the remote party sent no database name
and no roles. -/
theorem pgsql_c10_fresh_party_first_evaluation (st : PostgreSQL) (service : String)
    (hdb : st.previous_database service = none)
    (hrl : st.previous_roles service = none)
    (hrdb : getKV (st.conversation service).remoteIn "database" = none)
    (hrrl : getKV (st.conversation service).remoteIn "roles" = none) :
    st.requested_database service = ""
    ∧ st.requested_roles service = []
    ∧ st.previous_database service ≠ some (Val.vstr "")
    ∧ st.previous_roles service ≠ some (Val.vlist [])
    ∧ (st.joined_changed service).hasFlag service "database.requested" = true
    ∧ (st.joined_changed service).hasFlag service "roles.requested" = true := by
  have hreq : st.requested_database service = "" := by
    unfold PostgreSQL.requested_database Conversation.get_remote
    rw [hrdb]
    rfl
  have hreqr : st.requested_roles service = [] := by
    unfold PostgreSQL.requested_roles Conversation.get_remote
    rw [hrrl]
    rfl
  have hmdb : st.databaseMismatch service := by
    unfold PostgreSQL.databaseMismatch
    rw [hdb]
    simp
  have hmrl : st.rolesMismatch service := by
    unfold PostgreSQL.rolesMismatch
    rw [hrl]
    simp
  refine ⟨hreq, hreqr, by rw [hdb]; simp, by rw [hrl]; simp, ?_, ?_⟩
  · rw [joined_changed_hasFlag_db, decide_eq_true hmdb, Bool.or_true]
  · rw [joined_changed_hasFlag_roles, decide_eq_true hmrl, Bool.or_true]

/-- Witness for C10 at the empty store: a previously-unseen party that sent
nothing gets both flags on its first evaluation. -/
theorem pgsql_c10_witness :
    stEmpty.previous_database "svc" = none
    ∧ stEmpty.previous_roles "svc" = none
    ∧ getKV (stEmpty.conversation "svc").remoteIn "database" = none
    ∧ getKV (stEmpty.conversation "svc").remoteIn "roles" = none
    ∧ (stEmpty.requested_database "svc" = ""
        ∧ stEmpty.requested_roles "svc" = []
        ∧ stEmpty.previous_database "svc" ≠ some (Val.vstr "")
        ∧ stEmpty.previous_roles "svc" ≠ some (Val.vlist [])
        ∧ (stEmpty.joined_changed "svc").hasFlag "svc" "database.requested" = true
        ∧ (stEmpty.joined_changed "svc").hasFlag "svc" "roles.requested" = true) :=
  ⟨rfl, rfl, rfl, rfl,
    pgsql_c10_fresh_party_first_evaluation stEmpty "svc" rfl rfl rfl rfl⟩
